import Mathlib

/-!
# Verification of the Go call-graph construction pipeline

Shallow embedding of the Go call-graph subsystem of code-pathfinder:
the type-inference engine (`go_types.go`), the Pass 2b variable-assignment
extractor (`extraction` package), the import resolver and classifier,
the Go toolchain-version detector (`go_version.go`), and the call-target
resolver of the call-graph builder.

Conventions of the embedding:
* Go strings are Lean `String`s; all inputs of interest are ASCII, so
  character-based `String.drop` and byte-based Go slicing agree.
* Go maps are association lists (`List (String × α)`) with first-match
  lookup; insertion replaces in place or appends at the end, which keeps
  every concrete run deterministic and computable.
* `float64` confidence values only ever take the values 1.0, 0.95 and 0.9
  in this code; they are represented exactly as hundredths (`Nat`:
  100, 95, 90).
* Fallible Go calls returning `(T, error)` are `Option T`.
* File contents read from disk are modelled as `Option String`
  (`none` = the read fails / the file does not exist).
-/

namespace CodePathfinder

/-! ## Association-list primitives (Go map operations) -/

/-- First-match lookup in an association list (Go `m[k]` with `ok`). -/
def lookupAssoc {α : Type} (l : List (String × α)) (k : String) : Option α :=
  match l.find? (fun p => p.1 == k) with
  | some p => some p.2
  | none => none

/-- Go `m[k] = v`: replace the first binding of `k`, or append a new one. -/
def insertAssoc {α : Type} (l : List (String × α)) (k : String) (v : α) :
    List (String × α) :=
  match l with
  | [] => [(k, v)]
  | (k0, v0) :: rest =>
      if k0 == k then (k0, v) :: rest else (k0, v0) :: insertAssoc rest k v

/-! ## String primitives mirroring the Go standard library

Go strings are UTF-8 byte strings; every pattern these functions are
applied to is ASCII, so the byte-level Go operations coincide with the
character-level operations on `String.data` used here. -/

/-- The `listStartsWith l p`: `p` is an initial segment of `l`. -/
def listStartsWith : List Char → List Char → Bool
  | _, [] => true
  | [], _ :: _ => false
  | c :: cs, p :: ps => c == p && listStartsWith cs ps

/-- Go `strings.HasPrefix s p` on the character level. -/
def strStartsWith (s p : String) : Bool := listStartsWith s.data p.data

/-- Go `strings.TrimPrefix p s`. -/
def goTrimPfx (p s : String) : String :=
  if strStartsWith s p then ⟨s.data.drop p.data.length⟩ else s

/-- Go `strings.Contains s "."`. -/
def containsDot (s : String) : Bool := s.data.contains '.'

/-- Index (in characters) of the last '.' of `s`, or `none`.
Mirrors Go `strings.LastIndex(s, ".")` (the `-1` result becomes `none`). -/
def lastDotIdx (s : String) : Option Nat :=
  let idxs := (List.range s.length).filter (fun i => s.data.getD i ' ' == '.')
  idxs.getLast?

/-- Go `strings.Split(s, ".")`: split at every '.' (structural helper). -/
def splitOnDotAux : List Char → List Char → List String
  | [], acc => [⟨acc.reverse⟩]
  | c :: rest, acc =>
      if c == '.' then ⟨acc.reverse⟩ :: splitOnDotAux rest []
      else splitOnDotAux rest (c :: acc)

/-- Go `strings.Split(s, ".")`. -/
def goSplitOnDot (s : String) : List String := splitOnDotAux s.data []

/-- The ASCII whitespace recognized by Go `unicode.IsSpace` (the inputs of
interest are ASCII). -/
def isGoWhitespaceChar (c : Char) : Bool :=
  c == ' ' || c == '\t' || c == '\n' || c == '\x0b' || c == '\x0c' || c == '\r'

/-- Go `strings.TrimSpace` (ASCII). -/
def goTrimSpace (s : String) : String :=
  ⟨((s.data.dropWhile isGoWhitespaceChar).reverse.dropWhile
      isGoWhitespaceChar).reverse⟩

/-! ## Core data model (`core` package) -/

/-- The `core.TypeInfo`. Confidence is in hundredths (90 = 0.9, 100 = 1.0). -/
structure TypeInfo where
  typeFQN : String
  confidence : Nat
  source : String
deriving Repr, DecidableEq

/-- The `core.GoReturnValue`: one return value of a stdlib manifest function. -/
structure GoReturnValue where
  type_ : String
deriving Repr, DecidableEq

/-- The `core.GoStdlibFunction`: one function entry of the stdlib manifest. -/
structure GoStdlibFunction where
  name : String
  returns : List GoReturnValue
deriving Repr, DecidableEq

/-- The `core.GoStdlibLoader` interface: `ValidateStdlibImport` and
`GetFunction` are the two capabilities this subsystem consumes.
`GetFunction` returning `none` models a non-nil Go error. -/
structure GoStdlibLoader where
  validateStdlibImport : String → Bool
  getFunction : String → String → Option GoStdlibFunction

/-- The `core.GoModuleRegistry`: module path, directory→import mapping and the
optional stdlib loader (`nil` interface = `none`). -/
structure GoModuleRegistry where
  modulePath : String
  dirToImport : List (String × String)
  stdlibLoader : Option GoStdlibLoader

/-- The `core.GoImportMap`: alias → import path bindings of one file. -/
structure GoImportMap where
  packageName : String
  imports : List (String × String)

/-- The `resolution.Location`. -/
structure Location where
  file : String
  line : Nat
deriving Repr, DecidableEq

/-- The `resolution.GoVariableBinding`. -/
structure GoVariableBinding where
  varName : String
  type_ : TypeInfo
  assignedFrom : String
  location : Location
deriving Repr, DecidableEq

/-- The `resolution.GoFunctionScope`: per-function variable bindings.
`vars` maps a name to its append-only binding list. -/
structure GoFunctionScope where
  functionFQN : String
  vars : List (String × List GoVariableBinding)
deriving Repr, DecidableEq

/-- The `resolution.NewGoFunctionScope`. -/
def NewGoFunctionScope (functionFQN : String) : GoFunctionScope :=
  { functionFQN := functionFQN, vars := [] }

/-- The `GoFunctionScope.AddVariable`: append the binding to the slice for its
name (Go `append` on a map entry). The Go nil-check is vacuous here. -/
def GoFunctionScope.addVariable (s : GoFunctionScope) (b : GoVariableBinding) :
    GoFunctionScope :=
  let old := (lookupAssoc s.vars b.varName).getD []
  { s with vars := insertAssoc s.vars b.varName (old ++ [b]) }

/-- The `GoFunctionScope.GetVariable`: latest (last-appended) binding, `nil` when
the variable is unknown. -/
def GoFunctionScope.getVariable (s : GoFunctionScope) (varName : String) :
    Option GoVariableBinding :=
  let bindings := (lookupAssoc s.vars varName).getD []
  match bindings with
  | [] => none
  | _ => bindings.getLast?

/-- The `GoFunctionScope.GetAllBindings`: the full binding slice. -/
def GoFunctionScope.getAllBindings (s : GoFunctionScope) (varName : String) :
    List GoVariableBinding :=
  (lookupAssoc s.vars varName).getD []

/-- The `resolution.GoTypeInferenceEngine` (mutexes have no observable effect in
the sequential embedding and are omitted). -/
structure GoTypeInferenceEngine where
  scopes : List (String × GoFunctionScope)
  returnTypes : List (String × TypeInfo)
  registry : GoModuleRegistry

/-- The `resolution.NewGoTypeInferenceEngine`. -/
def NewGoTypeInferenceEngine (registry : GoModuleRegistry) :
    GoTypeInferenceEngine :=
  { scopes := [], returnTypes := [], registry := registry }

/-- The `GoTypeInferenceEngine.GetScope`. -/
def GoTypeInferenceEngine.getScope (e : GoTypeInferenceEngine)
    (functionFQN : String) : Option GoFunctionScope :=
  lookupAssoc e.scopes functionFQN

/-- The `GoTypeInferenceEngine.AddScope`. -/
def GoTypeInferenceEngine.addScope (e : GoTypeInferenceEngine)
    (scope : GoFunctionScope) : GoTypeInferenceEngine :=
  { e with scopes := insertAssoc e.scopes scope.functionFQN scope }

/-- The `GoTypeInferenceEngine.AddReturnType` (non-nil type info). -/
def GoTypeInferenceEngine.addReturnType (e : GoTypeInferenceEngine)
    (functionFQN : String) (typeInfo : TypeInfo) : GoTypeInferenceEngine :=
  { e with returnTypes := insertAssoc e.returnTypes functionFQN typeInfo }

/-! ## Stdlib return-type normalization

`stdlibNormalizeType` (`resolution/go_types.go`) and
`normalizeStdlibReturnType` (`extraction` package) have the same body in the
source; both are embedded, and their agreement is proved below. -/

/-- The recognized Go primitive type names (the `switch` in both
normalizers). -/
def goBuiltinNames : List String :=
  ["string", "int", "int8", "int16", "int32", "int64",
   "uint", "uint8", "uint16", "uint32", "uint64", "uintptr",
   "float32", "float64", "complex64", "complex128",
   "bool", "byte", "rune", "error"]

/-- The `resolution.stdlibNormalizeType`: raw manifest type string → TypeFQN. -/
def stdlibNormalizeType (rawType importPath : String) : String :=
  let t := goTrimPfx "*" rawType
  let t := goTrimPfx "[]" t
  if t == "" then ""
  else if goBuiltinNames.contains t then "builtin." ++ t
  else if containsDot t then t
  else importPath ++ "." ++ t

/-- The `extraction.normalizeStdlibReturnType`: raw manifest type string →
TypeFQN (same algorithm as `stdlibNormalizeType`). -/
def normalizeStdlibReturnType (rawType importPath : String) : String :=
  let t := rawType
  let t := goTrimPfx "*" t
  let t := goTrimPfx "[]" t
  if t == "" then ""
  else if goBuiltinNames.contains t then "builtin." ++ t
  else if containsDot t then t
  else importPath ++ "." ++ t

/-! ## Import classification (`GoImportResolver`) -/

/-- The `resolution.ImportType`. -/
inductive ImportType where
  | unknown
  | stdlib
  | thirdParty
  | local
deriving Repr, DecidableEq

/-- The `resolution.GoImportResolver`: `registry` may be `nil`. -/
structure GoImportResolver where
  registry : Option GoModuleRegistry

/-- The `GoImportResolver.isStdlibImportFallback`: offline heuristic — no dot in
the path and not under `internal/`. -/
def GoImportResolver.isStdlibImportFallback (_r : GoImportResolver)
    (importPath : String) : Bool :=
  if strStartsWith importPath "internal/" then false
  else !(containsDot importPath)

/-- The `GoImportResolver.isStdlibImport`: authoritative loader verdict when
available, heuristic otherwise. -/
def GoImportResolver.isStdlibImport (r : GoImportResolver)
    (importPath : String) : Bool :=
  match r.registry with
  | some reg =>
      match reg.stdlibLoader with
      | some loader => loader.validateStdlibImport importPath
      | none => r.isStdlibImportFallback importPath
  | none => r.isStdlibImportFallback importPath

/-- The `GoImportResolver.ClassifyImport`. -/
def GoImportResolver.classifyImport (r : GoImportResolver)
    (importPath : String) : ImportType :=
  if r.isStdlibImport importPath then .stdlib
  else if strStartsWith importPath "." then .local
  else
    match r.registry with
    | some reg =>
        if reg.modulePath != "" && strStartsWith importPath reg.modulePath then
          .local
        else .thirdParty
    | none => .thirdParty

/-! ## Return-type lookup (`GoTypeInferenceEngine.GetReturnType`) -/

/-- Split an FQN at its last '.' into `(importPath, funcName)`.
Mirrors the `dotIdx := strings.LastIndex(functionFQN, "."); if dotIdx <= 0`
guard in `GetReturnType`: no dot, or a dot at index 0, yields `none`. -/
def splitAtLastDot (s : String) : Option (String × String) :=
  match lastDotIdx s with
  | none => none
  | some 0 => none
  | some i => some (⟨s.data.take i⟩, ⟨s.data.drop (i + 1)⟩)

/-- The return-scanning loop of `GetReturnType`: skip empty and `error` raw
types, and skip entries whose normalization is empty; return the first
surviving normalized TypeFQN. -/
def stdlibFirstReturn (importPath : String) :
    List GoReturnValue → Option String
  | [] => none
  | r :: rest =>
      if r.type_ == "" || r.type_ == "error" then
        stdlibFirstReturn importPath rest
      else
        let typeFQN := stdlibNormalizeType r.type_ importPath
        if typeFQN == "" then stdlibFirstReturn importPath rest
        else some typeFQN

/-- The `GoTypeInferenceEngine.GetReturnType`: local table first, then the
stdlib manifest via the registry's loader. The Go `(nil, false)` result is
`none`. (`e.Registry` is always non-nil in the embedding; the
`e.Registry == nil` guard collapses into the loader check.) -/
def GoTypeInferenceEngine.getReturnType (e : GoTypeInferenceEngine)
    (functionFQN : String) : Option TypeInfo :=
  match lookupAssoc e.returnTypes functionFQN with
  | some typeInfo => some typeInfo
  | none =>
      match e.registry.stdlibLoader with
      | none => none
      | some loader =>
          match splitAtLastDot functionFQN with
          | none => none
          | some (importPath, funcName) =>
              if !(loader.validateStdlibImport importPath) then none
              else
                match loader.getFunction importPath funcName with
                | none => none
                | some fn =>
                    match stdlibFirstReturn importPath fn.returns with
                    | none => none
                    | some typeFQN =>
                        some { typeFQN := typeFQN, confidence := 100,
                               source := "stdlib" }

/-- Modelled from the spec claim for comparison (refinement check): on a
local miss it returns "the normalized first return type whose raw string is
non-empty and not 'error'" — with no further condition on the normalized
form. Everything else follows `GetReturnType`. -/
def getReturnTypeClaimC2 (e : GoTypeInferenceEngine)
    (functionFQN : String) : Option TypeInfo :=
  match lookupAssoc e.returnTypes functionFQN with
  | some typeInfo => some typeInfo
  | none =>
      match e.registry.stdlibLoader with
      | none => none
      | some loader =>
          match splitAtLastDot functionFQN with
          | none => none
          | some (importPath, funcName) =>
              if !(loader.validateStdlibImport importPath) then none
              else
                match loader.getFunction importPath funcName with
                | none => none
                | some fn =>
                    match fn.returns.find?
                        (fun r => !(r.type_ == "" || r.type_ == "error")) with
                    | none => none
                    | some r =>
                        some { typeFQN := stdlibNormalizeType r.type_ importPath,
                               confidence := 100, source := "stdlib" }

/-- The amended spec for `GetReturnType`: as `getReturnTypeClaimC2`, but the
selected return must also have a non-empty normalized form (this is the
condition the code actually enforces; it differs only on raw strings
"*", "[]" and "*[]"). -/
def getReturnTypeAmendedC2 (e : GoTypeInferenceEngine)
    (functionFQN : String) : Option TypeInfo :=
  match lookupAssoc e.returnTypes functionFQN with
  | some typeInfo => some typeInfo
  | none =>
      match e.registry.stdlibLoader with
      | none => none
      | some loader =>
          match splitAtLastDot functionFQN with
          | none => none
          | some (importPath, funcName) =>
              if !(loader.validateStdlibImport importPath) then none
              else
                match loader.getFunction importPath funcName with
                | none => none
                | some fn =>
                    match fn.returns.find?
                        (fun r => !(r.type_ == "" || r.type_ == "error") &&
                          !(stdlibNormalizeType r.type_ importPath == "")) with
                    | none => none
                    | some r =>
                        some { typeFQN := stdlibNormalizeType r.type_ importPath,
                               confidence := 100, source := "stdlib" }

/-! ## Toolchain-version detection (`builder/go_version.go`)

File reads are modelled by a record of the three optional file contents;
a failing `os.ReadFile` is `none`. -/

/-- The files `DetectGoVersion` may consult under the project root. -/
structure GoProjectFiles where
  goMod : Option String
  goVersionFile : Option String
  goWork : Option String

/-- The `const defaultGoVersion = "1.21"`. -/
def defaultGoVersion : String := "1.21"

/-- Go regexp `\s` character class: `[\t\n\f\r ]`. -/
def isGoRegexSpace (c : Char) : Bool :=
  c == '\t' || c == '\n' || c == '\x0c' || c == '\r' || c == ' '

/-- Try to match `go\s+(\d+\.\d+)` at the head of `cs` (a line start),
returning the captured group. Go's leftmost-first semantics make this
deterministic: the runs of whitespace and digits are maximal. -/
def matchGoDirectiveAt (cs : List Char) : Option String :=
  match cs with
  | 'g' :: 'o' :: rest =>
      if (rest.takeWhile isGoRegexSpace).isEmpty then none
      else
        let afterWs := rest.dropWhile isGoRegexSpace
        let d1 := afterWs.takeWhile Char.isDigit
        if d1.isEmpty then none
        else
          match afterWs.dropWhile Char.isDigit with
          | '.' :: rest2 =>
              let d2 := rest2.takeWhile Char.isDigit
              if d2.isEmpty then none else some ⟨d1 ++ '.' :: d2⟩
          | _ => none
  | _ => none

/-- Scan for the leftmost match of `(?m)^go\s+(\d+\.\d+)`: the `^` anchor in
multiline mode restricts match starts to the text start and positions right
after a newline. -/
def scanGoDirective : List Char → Bool → Option String
  | [], _ => none
  | c :: rest, atLineStart =>
      if atLineStart then
        match matchGoDirectiveAt (c :: rest) with
        | some v => some v
        | none => scanGoDirective rest (c == '\n')
      else scanGoDirective rest (c == '\n')

/-- The `parseGoVersionFromFile`: apply `goVersionRegex` to the file contents;
any read error or missing directive yields `""`. -/
def parseGoVersionFromFile (content : Option String) : String :=
  match content with
  | none => ""
  | some s => (scanGoDirective s.data true).getD ""

/-- The `normalizeGoVersion`: keep only the first two '.'-separated components;
fewer than two components are returned unchanged. -/
def normalizeGoVersion (version : String) : String :=
  let parts := goSplitOnDot version
  if 2 ≤ parts.length then parts.getD 0 "" ++ "." ++ parts.getD 1 ""
  else version

/-- The `readGoVersionFile`: trim and normalize the `.go-version` contents. -/
def readGoVersionFile (content : Option String) : String :=
  match content with
  | none => ""
  | some s => normalizeGoVersion (goTrimSpace s)

/-- The `DetectGoVersion`: go.mod directive, then `.go-version`, then go.work,
then the compiled-in default. -/
def DetectGoVersion (fs : GoProjectFiles) : String :=
  let v := parseGoVersionFromFile fs.goMod
  if v != "" then normalizeGoVersion v
  else
    let v2 := readGoVersionFile fs.goVersionFile
    if v2 != "" then v2
    else
      let v3 := parseGoVersionFromFile fs.goWork
      if v3 != "" then normalizeGoVersion v3
      else defaultGoVersion

/-- "major.minor form": exactly two non-empty all-digit components.
Formalizes the claim's "normalized to major.minor form". -/
def isMajorMinorForm (s : String) : Bool :=
  match goSplitOnDot s with
  | [a, b] => !a.data.isEmpty && !b.data.isEmpty &&
      a.data.all Char.isDigit && b.data.all Char.isDigit
  | _ => false

/-! ## Pass 2b — variable-assignment extraction (`extraction` package)

The tree-sitter parse is embedded as an inductive syntax tree carrying
exactly the node shapes `traverseForVariableAssignments` and
`inferTypeFromRHS` inspect. A missing tree-sitter child
(`ChildByFieldName` returning nil) is `none`. -/

/-- Index (in characters) of the last '/' of `s`, or `none`. -/
def lastSlashIdx (s : String) : Option Nat :=
  let idxs := (List.range s.length).filter (fun i => s.data.getD i ' ' == '/')
  idxs.getLast?

/-- The `filepath.Dir` for already-clean slash-separated paths: everything
before the last '/', with `"."` for a bare name and `"/"` for a root-level
entry. -/
def goDirOf (filePath : String) : String :=
  match lastSlashIdx filePath with
  | none => "."
  | some 0 => "/"
  | some i => ⟨filePath.data.take i⟩

/-- One left-hand-side variable of an assignment as the `golang` package
helpers report it: name, RHS expression text, and source line. -/
structure VarInfo where
  name : String
  value : String
  lineNumber : Nat
deriving Repr, DecidableEq

/-- The `function` child of a `call_expression`: a bare identifier, a
selector `operand.field`, or any other node shape. -/
inductive GoCallFn where
  | ident (name : String)
  | selector (operand field : String)
  | otherFn
deriving Repr, DecidableEq

/-- A right-hand-side expression node, by tree-sitter node type. -/
inductive GoRhs where
  | interpretedStringLit
  | rawStringLit
  | intLit
  | floatLit
  | imaginaryLit
  | trueLit
  | falseLit
  | runeLit
  | nilLit
  | callExpr (fn : Option GoCallFn)
  | identifier (name : String)
  | compositeLit (typeName : Option String)
  | unaryExpr (operator : Option String) (operand : Option GoRhs)
  | exprList (items : List GoRhs)
  | otherRhs
deriving Repr

/-- A syntax-tree node as seen by `traverseForVariableAssignments`: the four
node types it switches on, plus everything else; every node carries its
named children. `methodDecl`'s `receiverRaw` is the text of the receiver's
type node (`""` when the receiver yields no type). -/
inductive GoNode where
  | funcDecl (name : Option String) (children : List GoNode)
  | methodDecl (name : Option String) (receiverRaw : String)
      (children : List GoNode)
  | shortVarDecl (lhs : List VarInfo) (rhs : Option GoRhs)
      (children : List GoNode)
  | assignStmt (lhs : List VarInfo) (rhs : Option GoRhs)
      (children : List GoNode)
  | otherNode (children : List GoNode)
deriving Repr

/-- Modelled from the spec: `golang.ParseShortVarDeclaration` is not under
src/ (only its caller is). It reports one `(name, value, line)` record per
left-hand-side identifier of `x, y := rhs`; the blank-identifier skip is
done by the caller in `processShortVarDeclaration`. -/
def ParseShortVarDeclaration (lhs : List VarInfo) : List VarInfo := lhs

/-- Modelled from the spec: `golang.ParseAssignment` is not under src/
(only its caller is). Per the spec "Blank (`_`) identifiers on LHS produce
no binding" and its caller has no blank check of its own, so the helper
itself drops blank identifiers. -/
def ParseAssignment (lhs : List VarInfo) : List VarInfo :=
  lhs.filter (fun v => v.name != "_")

/-- Modelled from the spec: `ParseGoTypeString` (PR-14) is not under src/.
Struct-literal type names go through "the same normalization as Pass 2a":
strip `*` and `[]`, primitives become `builtin.<name>`, dotted names are
kept verbatim, bare names are qualified with the file's own package path
(spec §4.4); declaration-sourced entries carry confidence 0.95. A name
that cannot be resolved is the error case (`none`). -/
def ParseGoTypeString (typeName : String) (registry : GoModuleRegistry)
    (filePath : String) : Option TypeInfo :=
  let t := goTrimPfx "*" (goTrimPfx "&" typeName)
  let t := goTrimPfx "[]" t
  if t == "" then none
  else if goBuiltinNames.contains t then
    some { typeFQN := "builtin." ++ t, confidence := 95, source := "declaration" }
  else if containsDot t then
    some { typeFQN := t, confidence := 95, source := "declaration" }
  else
    match lookupAssoc registry.dirToImport (goDirOf filePath) with
    | some packagePath =>
        some { typeFQN := packagePath ++ "." ++ t, confidence := 95,
               source := "declaration" }
    | none => none

/-- The `extraction.extractGoFunctionName`: bare identifier, or selector
resolved through the import map (falling back to the bare field name). -/
def extractGoFunctionName (funcNode : GoCallFn) (importMap : GoImportMap) :
    String :=
  match funcNode with
  | .ident name => name
  | .selector operand field =>
      match lookupAssoc importMap.imports operand with
      | some importPath => importPath ++ "." ++ field
      | none => field
  | .otherFn => ""

/-- The return-scanning loop of `inferTypeFromStdlibFunction` (first
non-error, non-empty return, with `normalizeStdlibReturnType`). -/
def stdlibRegistryFirstReturn (importPath : String) :
    List GoReturnValue → Option String
  | [] => none
  | r :: rest =>
      if r.type_ == "" || r.type_ == "error" then
        stdlibRegistryFirstReturn importPath rest
      else
        let typeFQN := normalizeStdlibReturnType r.type_ importPath
        if typeFQN == "" then stdlibRegistryFirstReturn importPath rest
        else some typeFQN

/-- The `extraction.inferTypeFromStdlibFunction`: the Pass 2b stdlib fallback
(confidence 0.9, source `stdlib_registry`). -/
def inferTypeFromStdlibFunction (importPath funcName : String)
    (registry : GoModuleRegistry) : Option TypeInfo :=
  match registry.stdlibLoader with
  | none => none
  | some loader =>
      if !(loader.validateStdlibImport importPath) then none
      else
        match loader.getFunction importPath funcName with
        | none => none
        | some fn =>
            if fn.returns.isEmpty then none
            else
              match stdlibRegistryFirstReturn importPath fn.returns with
              | none => none
              | some typeFQN =>
                  some { typeFQN := typeFQN, confidence := 90,
                         source := "stdlib_registry" }

/-- The `extraction.inferTypeFromFunctionCall`: qualify the callee name, consult
the engine's return-type table, then fall back to the stdlib registry. -/
def inferTypeFromFunctionCall (callFn : Option GoCallFn) (filePath : String)
    (typeEngine : GoTypeInferenceEngine) (registry : GoModuleRegistry)
    (importMap : GoImportMap) : Option TypeInfo :=
  match callFn with
  | none => none
  | some funcNode =>
      let funcName := extractGoFunctionName funcNode importMap
      if funcName == "" then none
      else
        let funcName :=
          if !(containsDot funcName) then
            match lookupAssoc registry.dirToImport (goDirOf filePath) with
            | some packagePath => packagePath ++ "." ++ funcName
            | none => funcName
          else funcName
        match typeEngine.getReturnType funcName with
        | some typeInfo => some typeInfo
        | none =>
            match splitAtLastDot funcName with
            | none => none
            | some (importPath, fnName) =>
                inferTypeFromStdlibFunction importPath fnName registry

/-- The `extraction.inferTypeFromVariable`: latest binding of the name in the
current function scope. -/
def inferTypeFromVariable (varName functionFQN : String)
    (typeEngine : GoTypeInferenceEngine) : Option TypeInfo :=
  match typeEngine.getScope functionFQN with
  | none => none
  | some scope =>
      match (lookupAssoc scope.vars varName).getD [] with
      | [] => none
      | bindings => bindings.getLast?.map (fun b => b.type_)

/-- The `extraction.inferTypeFromCompositeLiteral`. -/
def inferTypeFromCompositeLiteral (typeName : Option String)
    (filePath : String) (registry : GoModuleRegistry) : Option TypeInfo :=
  match typeName with
  | none => none
  | some t => ParseGoTypeString t registry filePath

/-- The `extraction.inferTypeFromRHS`: RHS type inference by node kind. -/
def inferTypeFromRHS (rhsNode : GoRhs) (filePath functionFQN : String)
    (typeEngine : GoTypeInferenceEngine) (registry : GoModuleRegistry)
    (importMap : GoImportMap) : Option TypeInfo :=
  match rhsNode with
  | .interpretedStringLit =>
      some { typeFQN := "builtin.string", confidence := 100, source := "literal" }
  | .rawStringLit =>
      some { typeFQN := "builtin.string", confidence := 100, source := "literal" }
  | .intLit =>
      some { typeFQN := "builtin.int", confidence := 100, source := "literal" }
  | .floatLit =>
      some { typeFQN := "builtin.float64", confidence := 100, source := "literal" }
  | .imaginaryLit =>
      some { typeFQN := "builtin.complex128", confidence := 100, source := "literal" }
  | .trueLit =>
      some { typeFQN := "builtin.bool", confidence := 100, source := "literal" }
  | .falseLit =>
      some { typeFQN := "builtin.bool", confidence := 100, source := "literal" }
  | .runeLit =>
      some { typeFQN := "builtin.rune", confidence := 100, source := "literal" }
  | .nilLit =>
      some { typeFQN := "builtin.nil", confidence := 100, source := "literal" }
  | .callExpr fn =>
      inferTypeFromFunctionCall fn filePath typeEngine registry importMap
  | .identifier varName =>
      inferTypeFromVariable varName functionFQN typeEngine
  | .compositeLit typeName =>
      inferTypeFromCompositeLiteral typeName filePath registry
  | .unaryExpr operator operand =>
      match operator with
      | none => none
      | some op =>
          match operand with
          | none => none
          | some inner =>
              if op == "&" then
                inferTypeFromRHS inner filePath functionFQN typeEngine
                  registry importMap
              else none
  | .exprList items =>
      match items with
      | [] => none
      | first :: _ =>
          inferTypeFromRHS first filePath functionFQN typeEngine registry
            importMap
  | .otherRhs => none

/-- The get-or-create-scope-then-add-binding sequence shared by both
assignment processors. -/
def engineAddBinding (e : GoTypeInferenceEngine) (functionFQN : String)
    (binding : GoVariableBinding) : GoTypeInferenceEngine :=
  let scope := (e.getScope functionFQN).getD (NewGoFunctionScope functionFQN)
  e.addScope (scope.addVariable binding)

/-- The `extraction.processShortVarDeclaration`: every LHS variable of
`x, y := rhs` gets the RHS type; blank identifiers are skipped; an
uninferrable RHS produces no binding. -/
def processShortVarDeclaration (lhs : List VarInfo) (rhs : Option GoRhs)
    (filePath functionFQN : String) (typeEngine : GoTypeInferenceEngine)
    (registry : GoModuleRegistry) (importMap : GoImportMap) :
    GoTypeInferenceEngine :=
  let varInfos := ParseShortVarDeclaration lhs
  if varInfos.isEmpty then typeEngine
  else
    match rhs with
    | none => typeEngine
    | some rhsNode =>
        varInfos.foldl (fun engine varInfo =>
          if varInfo.name == "_" then engine
          else
            match inferTypeFromRHS rhsNode filePath functionFQN engine
                registry importMap with
            | none => engine
            | some typeInfo =>
                engineAddBinding engine functionFQN
                  { varName := varInfo.name, type_ := typeInfo,
                    assignedFrom := varInfo.value,
                    location := { file := filePath, line := varInfo.lineNumber } })
          typeEngine

/-- The `extraction.processAssignmentStatement`: reassignment `x = rhs`;
appends a fresh binding for every LHS variable the helper reports. -/
def processAssignmentStatement (lhs : List VarInfo) (rhs : Option GoRhs)
    (filePath functionFQN : String) (typeEngine : GoTypeInferenceEngine)
    (registry : GoModuleRegistry) (importMap : GoImportMap) :
    GoTypeInferenceEngine :=
  let varInfos := ParseAssignment lhs
  if varInfos.isEmpty then typeEngine
  else
    match rhs with
    | none => typeEngine
    | some rhsNode =>
        varInfos.foldl (fun engine varInfo =>
          match inferTypeFromRHS rhsNode filePath functionFQN engine
              registry importMap with
          | none => engine
          | some typeInfo =>
              engineAddBinding engine functionFQN
                { varName := varInfo.name, type_ := typeInfo,
                  assignedFrom := varInfo.value,
                  location := { file := filePath, line := varInfo.lineNumber } })
          typeEngine

mutual

/-- The `extraction.traverseForVariableAssignments`: pre-order walk tracking the
enclosing function FQN; assignments met outside any function are ignored. -/
def traverseForVariableAssignments (node : GoNode)
    (filePath packagePath currentFunctionFQN : String)
    (typeEngine : GoTypeInferenceEngine) (registry : GoModuleRegistry)
    (importMap : GoImportMap) : GoTypeInferenceEngine :=
  match node with
  | .funcDecl name children =>
      let fqn :=
        match name with
        | some funcName => packagePath ++ "." ++ funcName
        | none => currentFunctionFQN
      traverseChildren children filePath packagePath fqn typeEngine registry
        importMap
  | .methodDecl name receiverRaw children =>
      let fqn :=
        match name with
        | some methodName =>
            let receiverType := goTrimPfx "*" receiverRaw
            if receiverType != "" then
              packagePath ++ "." ++ receiverType ++ "." ++ methodName
            else currentFunctionFQN
        | none => currentFunctionFQN
      traverseChildren children filePath packagePath fqn typeEngine registry
        importMap
  | .shortVarDecl lhs rhs children =>
      let engine :=
        if currentFunctionFQN != "" then
          processShortVarDeclaration lhs rhs filePath currentFunctionFQN
            typeEngine registry importMap
        else typeEngine
      traverseChildren children filePath packagePath currentFunctionFQN engine
        registry importMap
  | .assignStmt lhs rhs children =>
      let engine :=
        if currentFunctionFQN != "" then
          processAssignmentStatement lhs rhs filePath currentFunctionFQN
            typeEngine registry importMap
        else typeEngine
      traverseChildren children filePath packagePath currentFunctionFQN engine
        registry importMap
  | .otherNode children =>
      traverseChildren children filePath packagePath currentFunctionFQN
        typeEngine registry importMap

/-- The child-recursion loop of `traverseForVariableAssignments`. -/
def traverseChildren (children : List GoNode)
    (filePath packagePath currentFunctionFQN : String)
    (typeEngine : GoTypeInferenceEngine) (registry : GoModuleRegistry)
    (importMap : GoImportMap) : GoTypeInferenceEngine :=
  match children with
  | [] => typeEngine
  | child :: rest =>
      let engine := traverseForVariableAssignments child filePath packagePath
        currentFunctionFQN typeEngine registry importMap
      traverseChildren rest filePath packagePath currentFunctionFQN engine
        registry importMap

end

/-- The `extraction.ExtractGoVariableAssignments` (post-parse): look up the
file's package by directory; files outside the registry are skipped with a
`nil` error and no engine mutation. The tree-sitter parse itself is outside
the embedding (`tree` is its result on an absolute `filePath`). -/
def ExtractGoVariableAssignments (filePath : String) (tree : GoNode)
    (typeEngine : GoTypeInferenceEngine) (registry : GoModuleRegistry)
    (importMap : GoImportMap) : GoTypeInferenceEngine :=
  let dirPath := goDirOf filePath
  match lookupAssoc registry.dirToImport dirPath with
  | none => typeEngine
  | some packagePath =>
      traverseForVariableAssignments tree filePath packagePath "" typeEngine
        registry importMap

/-! ## Call-target resolution (`builder` package) -/

/-- The `builder.CallSiteInternal` (the fields the resolver reads). -/
structure CallSiteInternal where
  functionName : String
  objectName : String
deriving Repr, DecidableEq

/-- Modelled from the spec: `resolveGoCallTarget` is not under src/ (only
its tests are). Spec §4.5 resolution patterns, in order: (1) selector
through a package alias → `<importPath>.b`, `isStdlib` iff the Stdlib
Loader validates the import path; (2) selector through a variable of known
type → method dispatch, never stdlib; (3) bare call → `builtin.f` for a
recognized builtin, else `<currentPackage>.f`; (4) otherwise unresolved
with an empty FQN. Returns `(targetFQN, resolved, isStdlib)`. -/
def resolveGoCallTarget (cs : CallSiteInternal) (importMap : GoImportMap)
    (registry : GoModuleRegistry) (varTypeOf : String → Option String)
    (goBuiltins : List String) (currentPackage : String) :
    String × Bool × Bool :=
  if cs.objectName != "" then
    match lookupAssoc importMap.imports cs.objectName with
    | some importPath =>
        let isStdlib :=
          match registry.stdlibLoader with
          | some loader => loader.validateStdlibImport importPath
          | none => false
        (importPath ++ "." ++ cs.functionName, true, isStdlib)
    | none =>
        match varTypeOf cs.objectName with
        | some typeFQN => (typeFQN ++ "." ++ cs.functionName, true, false)
        | none => ("", false, false)
  else
    if goBuiltins.contains cs.functionName then
      ("builtin." ++ cs.functionName, true, false)
    else (currentPackage ++ "." ++ cs.functionName, true, false)

/-! ## Concrete fixtures for the claim theorems and witnesses -/

/-- Concrete registry for the C6 witness. -/
def loaderC6 : GoStdlibLoader :=
  { validateStdlibImport := fun p => p == "fmt" || p == "net/http",
    getFunction := fun _ _ => none }

/-- Concrete registry for the C6 witness. -/
def regC6 : GoModuleRegistry :=
  { modulePath := "github.com/example/app", dirToImport := [],
    stdlibLoader := some loaderC6 }

/-- Loader for the C2 counterexample: package `p` exports `f` whose single
return-value type string is `"*"` (non-empty, not `error`, normalizes to
the empty string). -/
def loaderC2 : GoStdlibLoader :=
  { validateStdlibImport := fun p => p == "p",
    getFunction := fun ip fn =>
      if ip == "p" && fn == "f" then
        some { name := "f", returns := [{ type_ := "*" }] }
      else none }

/-- Engine for the C2 counterexample (empty local table). -/
def engineC2 : GoTypeInferenceEngine :=
  NewGoTypeInferenceEngine
    { modulePath := "m", dirToImport := [], stdlibLoader := some loaderC2 }

/-- Project files for the C9 counterexample: no go.mod, a `.go-version`
pin whose content is the single component "7". -/
def fsC9 : GoProjectFiles :=
  { goMod := none, goVersionFile := some "7", goWork := none }

/-- Project files for the C9 witness: a go.mod with a `go 1.22` directive
beside a conflicting `.go-version`. -/
def fsC9w : GoProjectFiles :=
  { goMod := some "module example.com/app\n\ngo 1.22\n",
    goVersionFile := some "1.20.3\n", goWork := none }

/-- Registry for the C10 witness: only `/app` is registered. -/
def regC10 : GoModuleRegistry :=
  { modulePath := "app", dirToImport := [("/app", "app")],
    stdlibLoader := none }

/-- Engine for the C10 witness. -/
def engineC10 : GoTypeInferenceEngine := NewGoTypeInferenceEngine regC10

/-- The engine-wide invariant of C4: no scope has a binding list for the
blank identifier. -/
def noBlankBindings (e : GoTypeInferenceEngine) : Prop :=
  ∀ fqn scope, e.getScope fqn = some scope → scope.getAllBindings "_" = []

/-- Registry for the C4 witness. -/
def regC4 : GoModuleRegistry :=
  { modulePath := "app", dirToImport := [("/app", "app")],
    stdlibLoader := none }

/-- Engine for the C4 witness. -/
def engineC4 : GoTypeInferenceEngine := NewGoTypeInferenceEngine regC4

/-- Syntax tree for the C4 witness: `x, _ := 1` then `_ = x` inside `F`. -/
def treeC4 : GoNode :=
  .funcDecl (some "F")
    [.shortVarDecl
      [{ name := "x", value := "1", lineNumber := 3 },
       { name := "_", value := "1", lineNumber := 3 }]
      (some (.exprList [.intLit])) [],
     .assignStmt [{ name := "_", value := "x", lineNumber := 4 }]
      (some (.exprList [.identifier "x"])) []]

/-- The scope Pass 2b builds for `app.F` in the C4 witness run. -/
def scopeC4 : GoFunctionScope :=
  ((ExtractGoVariableAssignments "/app/main.go" treeC4 engineC4 regC4
    { packageName := "app", imports := [] }).getScope "app.F").getD
    (NewGoFunctionScope "app.F")

/-- Loader for the C3 run: manifest says net/http is stdlib and `Get`
returns `[*Response, error]`. -/
def loaderC3 : GoStdlibLoader :=
  { validateStdlibImport := fun p => p == "net/http",
    getFunction := fun ip fn =>
      if ip == "net/http" && fn == "Get" then
        some { name := "Get",
               returns := [{ type_ := "*Response" }, { type_ := "error" }] }
      else none }

/-- Registry for the C3 run: `/test` is package `main`. -/
def regC3 : GoModuleRegistry :=
  { modulePath := "test", dirToImport := [("/test", "main")],
    stdlibLoader := some loaderC3 }

/-- Engine for the C3 run (fresh, with the loader-bearing registry). -/
def engineC3 : GoTypeInferenceEngine := NewGoTypeInferenceEngine regC3

/-- Import map of the C3 file: `net/http` under default alias `http`. -/
def importMapC3 : GoImportMap :=
  { packageName := "main", imports := [("http", "net/http")] }

/-- Parse of the C3 file: `func main() { resp, _ := http.Get(url) }`. -/
def treeC3 : GoNode :=
  .otherNode [.funcDecl (some "main")
    [.shortVarDecl
      [{ name := "resp", value := "http.Get(url)", lineNumber := 7 },
       { name := "_", value := "http.Get(url)", lineNumber := 7 }]
      (some (.exprList [.callExpr (some (.selector "http" "Get"))])) []]]

/-- The scope Pass 2b builds for `main.main` in the C3 run. -/
def scopeC3 : GoFunctionScope :=
  ((ExtractGoVariableAssignments "/test/main.go" treeC3 engineC3 regC3
    importMapC3).getScope "main.main").getD (NewGoFunctionScope "main.main")

/-- The binding the code actually produces for `resp`. -/
def bindingC3 : GoVariableBinding :=
  { varName := "resp",
    type_ := { typeFQN := "net/http.Response", confidence := 100,
               source := "stdlib" },
    assignedFrom := "http.Get(url)",
    location := { file := "/test/main.go", line := 7 } }

/-- Registry for the C5 run. -/
def regC5 : GoModuleRegistry :=
  { modulePath := "app", dirToImport := [("/app", "app")],
    stdlibLoader := none }

/-- Engine for the C5 run: Pass 2a registered return types for `GetUser`
and `NewUser`. -/
def engineC5 : GoTypeInferenceEngine :=
  ((NewGoTypeInferenceEngine regC5).addReturnType "app.GetUser"
    { typeFQN := "app.User", confidence := 95,
      source := "declaration" }).addReturnType "app.NewUser"
    { typeFQN := "app.User", confidence := 95, source := "declaration" }

/-- Parse of the C5 file: `u := GetUser(1)` at line 10, then
`u = NewUser()` at line 20, inside `F`. -/
def treeC5 : GoNode :=
  .funcDecl (some "F")
    [.shortVarDecl [{ name := "u", value := "GetUser(1)", lineNumber := 10 }]
      (some (.exprList [.callExpr (some (.ident "GetUser"))])) [],
     .assignStmt [{ name := "u", value := "NewUser()", lineNumber := 20 }]
      (some (.exprList [.callExpr (some (.ident "NewUser"))])) []]

/-- The scope Pass 2b builds for `app.F` in the C5 run. -/
def scopeC5 : GoFunctionScope :=
  ((ExtractGoVariableAssignments "/app/main.go" treeC5 engineC5 regC5
    { packageName := "app", imports := [] }).getScope "app.F").getD
    (NewGoFunctionScope "app.F")

/-- The line-10 binding of `u` (from `GetUser(1)`). -/
def bindingC5a : GoVariableBinding :=
  { varName := "u",
    type_ := { typeFQN := "app.User", confidence := 95,
               source := "declaration" },
    assignedFrom := "GetUser(1)",
    location := { file := "/app/main.go", line := 10 } }

/-- The line-20 binding of `u` (from `NewUser()`). -/
def bindingC5b : GoVariableBinding :=
  { varName := "u",
    type_ := { typeFQN := "app.User", confidence := 95,
               source := "declaration" },
    assignedFrom := "NewUser()",
    location := { file := "/app/main.go", line := 20 } }


/-! ## Helper lemmas -/

/-- The two normalizers have the same body in the source; they agree. -/
theorem stdlibNormalizeType_eq_normalizeStdlibReturnType
    (rawType importPath : String) :
    stdlibNormalizeType rawType importPath =
      normalizeStdlibReturnType rawType importPath := rfl

/-- None of the recognized primitive names contains a dot. -/
theorem builtin_no_dot : ∀ s ∈ goBuiltinNames, containsDot s = false := by
  decide

/-- One-character patterns: the test only looks at the head. -/
theorem listStartsWith_one (l : List Char) (c : Char) :
    listStartsWith l [c] = (match l with
      | [] => false
      | x :: _ => x == c) := by
  cases l <;> simp [listStartsWith]

/-- Two-character patterns: the test only looks at the first two chars. -/
theorem listStartsWith_two (l : List Char) (c d : Char) :
    listStartsWith l [c, d] = (match l with
      | [] => false
      | [_] => false
      | x :: y :: _ => x == c && y == d) := by
  match l with
  | [] => simp [listStartsWith]
  | [x] => simp [listStartsWith]
  | x :: y :: rest => simp [listStartsWith]

/-- Appending `"." ++ b` after `a` cannot create a leading `*`. -/
theorem strStartsWith_star_append (a b : String)
    (h : strStartsWith a "*" = false) :
    strStartsWith (a ++ "." ++ b) "*" = false := by
  unfold strStartsWith at h ⊢
  rw [show ("*" : String).data = ['*'] from rfl] at h ⊢
  rw [listStartsWith_one] at h
  simp only [String.data_append, listStartsWith_one]
  cases ha : a.data with
  | nil => simp [ha, show (("." : String).data) = ['.'] from rfl]
  | cons x xs => simp [ha] at h; simp [ha, h]

/-- Appending `"." ++ b` after `a` cannot create a leading `[]`. -/
theorem strStartsWith_brackets_append (a b : String)
    (h : strStartsWith a "[]" = false) :
    strStartsWith (a ++ "." ++ b) "[]" = false := by
  unfold strStartsWith at h ⊢
  rw [show ("[]" : String).data = ['[', ']'] from rfl] at h ⊢
  rw [listStartsWith_two] at h
  simp only [String.data_append, listStartsWith_two,
    show (("." : String).data) = ['.'] from rfl]
  match ha : a.data with
  | [] => cases b.data <;> simp
  | [x] =>
      simp only [ha] at h ⊢
      simp [List.cons_append]
  | x :: y :: rest =>
      simp only [ha] at h ⊢
      simpa using h

/-- The `a ++ "." ++ b` is never the empty string. -/
theorem append_dot_ne_empty (a b : String) : ((a ++ "." ++ b) == "") = false := by
  simp only [beq_eq_false_iff_ne, ne_eq, String.ext_iff, String.data_append]
  simp [show (("." : String).data) = ['.'] from rfl,
    show ("" : String).data = [] from rfl]

/-- The `a ++ "." ++ b` contains a dot. -/
theorem containsDot_append_dot (a b : String) :
    containsDot (a ++ "." ++ b) = true := by
  simp only [containsDot, String.data_append, List.contains, List.elem_eq_mem,
    decide_eq_true_eq]
  simp [show (("." : String).data) = ['.'] from rfl]

/-- A string that contains a dot is not a primitive name. -/
theorem not_builtin_of_dot (s : String) (h : containsDot s = true) :
    goBuiltinNames.contains s = false := by
  cases hc : goBuiltinNames.contains s with
  | false => rfl
  | true =>
      exfalso
      have hmem : s ∈ goBuiltinNames := by
        simpa [List.contains, List.elem_eq_mem] using hc
      have := builtin_no_dot s hmem
      rw [this] at h
      exact Bool.false_ne_true h

/-! ## C7 — fallback stdlib heuristic -/

/-- C7: when no Stdlib Loader is available, the fallback classifier reports
an import path as stdlib iff the path contains no '.' character and does
not begin with "internal/". -/
theorem isStdlibImportFallback_iff (r : GoImportResolver) (importPath : String) :
    r.isStdlibImportFallback importPath = true ↔
      (containsDot importPath = false ∧
        strStartsWith importPath "internal/" = false) := by
  unfold GoImportResolver.isStdlibImportFallback
  cases h1 : strStartsWith importPath "internal/" <;>
    cases h2 : containsDot importPath <;> simp [h1, h2]

/-! ## C6 — import classification rule -/

/-- C6: with a Stdlib Loader attached and a non-empty module path,
`ClassifyImport` returns stdlib when the loader validates the path,
otherwise local when the path is relative or extends the module's own
path, otherwise third-party. -/
theorem classifyImport_rule (reg : GoModuleRegistry) (loader : GoStdlibLoader)
    (h : reg.stdlibLoader = some loader) (hm : reg.modulePath ≠ "")
    (importPath : String) :
    GoImportResolver.classifyImport ⟨some reg⟩ importPath =
      (if loader.validateStdlibImport importPath then ImportType.stdlib
       else if strStartsWith importPath "." ||
           strStartsWith importPath reg.modulePath then ImportType.local
       else ImportType.thirdParty) := by
  have hm2 : (reg.modulePath != "") = true := by simpa using hm
  unfold GoImportResolver.classifyImport GoImportResolver.isStdlibImport
  simp only [h]
  cases hv : loader.validateStdlibImport importPath
  · cases hd : strStartsWith importPath "." <;>
      cases hmp : strStartsWith importPath reg.modulePath <;>
        simp [hv, hd, hmp, hm2]
  · simp [hv]

/-- C6 witness: a same-module import classifies as local under `regC6`. -/
theorem classifyImport_rule_witness :
    GoImportResolver.classifyImport ⟨some regC6⟩ "github.com/example/app/utils"
      = ImportType.local := by
  rw [classifyImport_rule regC6 loaderC6 rfl (by decide)
    "github.com/example/app/utils"]
  decide

/-! ## C8 — idempotence of the type normalizer -/

/-- C8 counterexample: the normalizer is not idempotent on every raw type
string: a doubly-starred dotted name loses one `*` per pass. -/
theorem normalizeStdlibReturnType_not_idempotent :
    normalizeStdlibReturnType
        (normalizeStdlibReturnType "**io.Reader" "fmt") "fmt" ≠
      normalizeStdlibReturnType "**io.Reader" "fmt" := by decide

/-- Branch-level reduction of `normalizeStdlibReturnType` (definitional). -/
theorem normalizeStdlibReturnType_eq (raw ip : String) :
    normalizeStdlibReturnType raw ip =
      (if goTrimPfx "[]" (goTrimPfx "*" raw) == "" then ""
       else if goBuiltinNames.contains (goTrimPfx "[]" (goTrimPfx "*" raw)) then
         "builtin." ++ goTrimPfx "[]" (goTrimPfx "*" raw)
       else if containsDot (goTrimPfx "[]" (goTrimPfx "*" raw)) then
         goTrimPfx "[]" (goTrimPfx "*" raw)
       else ip ++ "." ++ goTrimPfx "[]" (goTrimPfx "*" raw)) := rfl

/-- C8 (amended): the normalizer is idempotent whenever stripping one
leading `*` and one leading `[]` from the raw type leaves no further
leading `*` or `[]`, and the import path itself starts with neither —
the conditions under which a single strip is complete. -/
theorem normalizeStdlibReturnType_idempotent_amended
    (rawType importPath : String)
    (hip1 : strStartsWith importPath "*" = false)
    (hip2 : strStartsWith importPath "[]" = false)
    (ht1 : strStartsWith (goTrimPfx "[]" (goTrimPfx "*" rawType)) "*" = false)
    (ht2 : strStartsWith (goTrimPfx "[]" (goTrimPfx "*" rawType)) "[]" = false) :
    normalizeStdlibReturnType
        (normalizeStdlibReturnType rawType importPath) importPath =
      normalizeStdlibReturnType rawType importPath ∧
    stdlibNormalizeType
        (stdlibNormalizeType rawType importPath) importPath =
      stdlibNormalizeType rawType importPath := by
  have key : normalizeStdlibReturnType
      (normalizeStdlibReturnType rawType importPath) importPath =
      normalizeStdlibReturnType rawType importPath := by
    obtain ⟨t, htdef⟩ : ∃ t, goTrimPfx "[]" (goTrimPfx "*" rawType) = t :=
      ⟨_, rfl⟩
    rw [htdef] at ht1 ht2
    have hinner : normalizeStdlibReturnType rawType importPath =
        (if t == "" then ""
         else if goBuiltinNames.contains t then "builtin." ++ t
         else if containsDot t then t
         else importPath ++ "." ++ t) := by
      rw [normalizeStdlibReturnType_eq, htdef]
    have e1 : goTrimPfx "*" t = t := by simp [goTrimPfx, ht1]
    have e2 : goTrimPfx "[]" t = t := by simp [goTrimPfx, ht2]
    by_cases h0 : t = ""
    · rw [hinner]
      simp only [h0]
      rfl
    · have h0b : (t == "") = false := by simpa using h0
      have h0n : ¬((t == "") = true) := by simp [h0b]
      by_cases hb : goBuiltinNames.contains t = true
      · -- primitive name: the result is `builtin.<t>` with `t` concrete
        have hmem : t ∈ goBuiltinNames := by
          simpa [List.contains, List.elem_eq_mem] using hb
        have hres : normalizeStdlibReturnType rawType importPath =
            "builtin." ++ t := by
          rw [hinner, if_neg h0n, if_pos hb]
        rw [hres]
        simp only [goBuiltinNames, List.mem_cons, List.not_mem_nil, or_false]
          at hmem
        rcases hmem with rfl|rfl|rfl|rfl|rfl|rfl|rfl|rfl|rfl|rfl|rfl|rfl|rfl|
          rfl|rfl|rfl|rfl|rfl|rfl|rfl <;> rfl
      · have hbn : ¬(goBuiltinNames.contains t = true) := hb
        by_cases hd : containsDot t = true
        · -- dotted name kept verbatim
          have hres : normalizeStdlibReturnType rawType importPath = t := by
            rw [hinner, if_neg h0n, if_neg hbn, if_pos hd]
          rw [hres]
          rw [normalizeStdlibReturnType_eq, e1, e2,
            if_neg h0n, if_neg hbn, if_pos hd]
        · -- bare name qualified with the import path
          have hres : normalizeStdlibReturnType rawType importPath =
              importPath ++ "." ++ t := by
            rw [hinner, if_neg h0n, if_neg hbn, if_neg hd]
          rw [hres]
          have p1 : strStartsWith (importPath ++ "." ++ t) "*" = false :=
            strStartsWith_star_append importPath t hip1
          have p2 : strStartsWith (importPath ++ "." ++ t) "[]" = false :=
            strStartsWith_brackets_append importPath t hip2
          have q1 : goTrimPfx "*" (importPath ++ "." ++ t) =
              importPath ++ "." ++ t := by simp [goTrimPfx, p1]
          have q2 : goTrimPfx "[]" (importPath ++ "." ++ t) =
              importPath ++ "." ++ t := by simp [goTrimPfx, p2]
          have pne : ¬(((importPath ++ "." ++ t) == "") = true) := by
            simp [append_dot_ne_empty importPath t]
          have pdot : containsDot (importPath ++ "." ++ t) = true :=
            containsDot_append_dot importPath t
          have pnb : ¬(goBuiltinNames.contains (importPath ++ "." ++ t)
              = true) := by
            rw [not_builtin_of_dot _ pdot]
            simp
          rw [normalizeStdlibReturnType_eq, q1, q2,
            if_neg pne, if_neg pnb, if_pos pdot]
  exact ⟨key, by
    simpa only [stdlibNormalizeType_eq_normalizeStdlibReturnType] using key⟩

/-- C8 witness: idempotence at the manifest entry `*Request` of net/http. -/
theorem normalizeStdlibReturnType_idempotent_witness :
    normalizeStdlibReturnType
        (normalizeStdlibReturnType "*Request" "net/http") "net/http" =
      normalizeStdlibReturnType "*Request" "net/http" :=
  (normalizeStdlibReturnType_idempotent_amended "*Request" "net/http"
    (by decide) (by decide) (by decide) (by decide)).1

/-! ## C2 — GetReturnType lookup order -/

/-- The scanning loop picks exactly the first return that is non-empty,
non-error, and has a non-empty normalization. -/
theorem stdlibFirstReturn_eq_find (importPath : String)
    (returns : List GoReturnValue) :
    stdlibFirstReturn importPath returns =
      (returns.find? (fun r => !(r.type_ == "" || r.type_ == "error") &&
        !(stdlibNormalizeType r.type_ importPath == ""))).map
        (fun r => stdlibNormalizeType r.type_ importPath) := by
  induction returns with
  | nil => rfl
  | cons r rest ih =>
      unfold stdlibFirstReturn
      by_cases h1 : (r.type_ == "" || r.type_ == "error") = true
      · simp only [h1, if_pos]
        rw [ih]
        rw [List.find?_cons_of_neg]
        simp [h1]
      · have h1f : (r.type_ == "" || r.type_ == "error") = false := by
          simpa using h1
        simp only [h1f, Bool.false_eq_true, if_false]
        by_cases h2 : (stdlibNormalizeType r.type_ importPath == "") = true
        · simp only [h2, if_pos]
          rw [ih]
          rw [List.find?_cons_of_neg]
          simp [h1f, h2]
        · have h2f : (stdlibNormalizeType r.type_ importPath == "") = false := by
            simpa using h2
          simp only [h2f, Bool.false_eq_true, if_false]
          rw [List.find?_cons_of_pos]
          · rfl
          · simp [h1f, h2f]

/-- C2 counterexample: on `p.f`, the claim's rule ("return the normalized
first return type whose raw string is non-empty and not 'error'") yields a
TypeInfo with an empty FQN, but `GetReturnType` reports not-found: the code
additionally skips returns whose normalization is empty. -/
theorem getReturnType_spec_counterexample :
    engineC2.getReturnType "p.f" = none ∧
    getReturnTypeClaimC2 engineC2 "p.f" =
      some { typeFQN := "", confidence := 100, source := "stdlib" } ∧
    engineC2.getReturnType "p.f" ≠ getReturnTypeClaimC2 engineC2 "p.f" := by
  refine ⟨by decide, by decide, ?_⟩
  decide

/-- C2 (amended): `GetReturnType` consults the local table first and
returns its entry when present; only on a local miss, with a loader
attached, does it split the FQN at the last '.', validate the prefix, and
return the normalized first return type whose raw string is non-empty, not
'error', and whose normalization is non-empty, with source "stdlib" and
confidence 1.0; otherwise not-found. -/
theorem getReturnType_matches_amended_spec (e : GoTypeInferenceEngine)
    (functionFQN : String) :
    e.getReturnType functionFQN = getReturnTypeAmendedC2 e functionFQN := by
  unfold GoTypeInferenceEngine.getReturnType getReturnTypeAmendedC2
  cases lookupAssoc e.returnTypes functionFQN with
  | some typeInfo => rfl
  | none =>
      cases e.registry.stdlibLoader with
      | none => rfl
      | some loader =>
          cases splitAtLastDot functionFQN with
          | none => rfl
          | some p =>
              obtain ⟨importPath, funcName⟩ := p
              cases hv : loader.validateStdlibImport importPath with
              | false => simp [hv]
              | true =>
                  simp only [hv, Bool.not_true, Bool.false_eq_true, if_false]
                  cases loader.getFunction importPath funcName with
                  | none => rfl
                  | some fn =>
                      simp only
                      rw [stdlibFirstReturn_eq_find]
                      cases fn.returns.find? (fun r =>
                          !(r.type_ == "" || r.type_ == "error") &&
                          !(stdlibNormalizeType r.type_ importPath == "")) with
                      | none => rfl
                      | some r => rfl

/-! ## C9 — Go toolchain version detection -/

/-- C9 counterexample: `DetectGoVersion` can return a value that is not of
major.minor form — a one-component `.go-version` pin is passed through
unchanged by the normalizer. -/
theorem detectGoVersion_not_majorminor :
    DetectGoVersion fsC9 = "7" ∧
    isMajorMinorForm (DetectGoVersion fsC9) = false := by
  constructor
  · rfl
  · rfl

/-- C9 (amended): the four-step priority chain — go.mod directive, then
`.go-version`, then go.work, then the default "1.21" — where every
returned value has passed through the patch-stripping normalizer (a value
with two or more dot-components is truncated to its first two, e.g.
"1.21.4" yields "1.21"; a value with fewer stays as-is). -/
theorem detectGoVersion_priority_chain (fs : GoProjectFiles) :
    (parseGoVersionFromFile fs.goMod ≠ "" →
      DetectGoVersion fs =
        normalizeGoVersion (parseGoVersionFromFile fs.goMod)) ∧
    (parseGoVersionFromFile fs.goMod = "" →
      readGoVersionFile fs.goVersionFile ≠ "" →
      DetectGoVersion fs = readGoVersionFile fs.goVersionFile) ∧
    (parseGoVersionFromFile fs.goMod = "" →
      readGoVersionFile fs.goVersionFile = "" →
      parseGoVersionFromFile fs.goWork ≠ "" →
      DetectGoVersion fs =
        normalizeGoVersion (parseGoVersionFromFile fs.goWork)) ∧
    (parseGoVersionFromFile fs.goMod = "" →
      readGoVersionFile fs.goVersionFile = "" →
      parseGoVersionFromFile fs.goWork = "" →
      DetectGoVersion fs = defaultGoVersion) ∧
    normalizeGoVersion "1.21.4" = "1.21" := by
  have hD : DetectGoVersion fs =
      (if parseGoVersionFromFile fs.goMod != "" then
        normalizeGoVersion (parseGoVersionFromFile fs.goMod)
      else if readGoVersionFile fs.goVersionFile != "" then
        readGoVersionFile fs.goVersionFile
      else if parseGoVersionFromFile fs.goWork != "" then
        normalizeGoVersion (parseGoVersionFromFile fs.goWork)
      else defaultGoVersion) := rfl
  refine ⟨?_, ?_, ?_, ?_, rfl⟩
  · intro h1
    rw [hD, if_pos (by simpa using h1)]
  · intro h1 h2
    rw [hD, if_neg (by simp [h1]), if_pos (by simpa using h2)]
  · intro h1 h2 h3
    rw [hD, if_neg (by simp [h1]), if_neg (by simp [h2]),
      if_pos (by simpa using h3)]
  · intro h1 h2 h3
    rw [hD, if_neg (by simp [h1]), if_neg (by simp [h2]),
      if_neg (by simp [h3])]

/-- C9 witness: go.mod wins and its value is normalized. -/
theorem detectGoVersion_priority_chain_witness :
    DetectGoVersion fsC9w = "1.22" :=
  ((detectGoVersion_priority_chain fsC9w).1 (by decide)).trans (by decide)

/-! ## C10 — unregistered files leave the engine untouched -/

/-- C10: a file whose directory has no entry in the registry's
directory→import mapping is skipped: extraction succeeds and returns the
engine unchanged (no scope created, no binding added). -/
theorem extract_skips_unregistered_file (filePath : String) (tree : GoNode)
    (typeEngine : GoTypeInferenceEngine) (registry : GoModuleRegistry)
    (importMap : GoImportMap)
    (h : lookupAssoc registry.dirToImport (goDirOf filePath) = none) :
    ExtractGoVariableAssignments filePath tree typeEngine registry importMap
      = typeEngine := by
  have hdef : ExtractGoVariableAssignments filePath tree typeEngine registry
      importMap =
      (match lookupAssoc registry.dirToImport (goDirOf filePath) with
       | none => typeEngine
       | some packagePath =>
           traverseForVariableAssignments tree filePath packagePath ""
             typeEngine registry importMap) := rfl
  rw [hdef, h]

/-- C10 witness: a vendored file outside `/app` leaves the engine as-is. -/
theorem extract_skips_unregistered_file_witness :
    ExtractGoVariableAssignments "/vendor/dep/x.go"
      (.funcDecl (some "F")
        [.shortVarDecl [{ name := "x", value := "1", lineNumber := 3 }]
          (some (.exprList [.intLit])) []])
      engineC10 regC10 { packageName := "dep", imports := [] } = engineC10 :=
  extract_skips_unregistered_file "/vendor/dep/x.go" _ engineC10 regC10 _ rfl

/-! ## C1 — isStdlib only from the loader -/

/-- C1: for every call site, `isStdlib` is true only when a Stdlib Loader
is attached and validated the import path the call target resolved
through; with no loader, `isStdlib` is false for every call site. -/
theorem resolveGoCallTarget_isStdlib_only_from_loader
    (cs : CallSiteInternal) (importMap : GoImportMap)
    (registry : GoModuleRegistry) (varTypeOf : String → Option String)
    (goBuiltins : List String) (currentPackage : String) :
    ((resolveGoCallTarget cs importMap registry varTypeOf goBuiltins
        currentPackage).2.2 = true →
      ∃ loader importPath, registry.stdlibLoader = some loader ∧
        lookupAssoc importMap.imports cs.objectName = some importPath ∧
        loader.validateStdlibImport importPath = true) ∧
    (registry.stdlibLoader = none →
      (resolveGoCallTarget cs importMap registry varTypeOf goBuiltins
        currentPackage).2.2 = false) := by
  unfold resolveGoCallTarget
  by_cases ho : (cs.objectName != "") = true
  · simp only [ho, if_pos]
    cases hl : lookupAssoc importMap.imports cs.objectName with
    | some importPath =>
        cases hr : registry.stdlibLoader with
        | some loader =>
            exact ⟨fun h => ⟨loader, importPath, rfl, rfl, h⟩,
              fun hnone => (nomatch hnone)⟩
        | none => exact ⟨fun h => (nomatch h), fun _ => rfl⟩
    | none =>
        cases varTypeOf cs.objectName with
        | some typeFQN => exact ⟨fun h => (nomatch h), fun _ => rfl⟩
        | none => exact ⟨fun h => (nomatch h), fun _ => rfl⟩
  · have hob : (cs.objectName != "") = false := by simpa using ho
    simp only [hob, Bool.false_eq_true, if_false]
    by_cases hb : goBuiltins.contains cs.functionName = true
    · simp only [hb, if_pos]
      exact ⟨fun h => (nomatch h), fun _ => trivial⟩
    · have hbf : goBuiltins.contains cs.functionName = false := by simpa using hb
      simp only [hbf, Bool.false_eq_true, if_false]
      exact ⟨fun h => (nomatch h), fun _ => trivial⟩

/-- C1 witness: with no loader, the alias `fmt` bound to import path `fmt`
still resolves with `isStdlib = false`. -/
theorem resolveGoCallTarget_isStdlib_witness :
    (resolveGoCallTarget { functionName := "Println", objectName := "fmt" }
      { packageName := "main", imports := [("fmt", "fmt")] }
      { modulePath := "app", dirToImport := [], stdlibLoader := none }
      (fun _ => none) [] "app").2.2 = false :=
  (resolveGoCallTarget_isStdlib_only_from_loader
    { functionName := "Println", objectName := "fmt" }
    { packageName := "main", imports := [("fmt", "fmt")] }
    { modulePath := "app", dirToImport := [], stdlibLoader := none }
    (fun _ => none) [] "app").2 rfl

/-! ## C4 — blank identifiers are never bound -/

/-- Head-step of `lookupAssoc`. -/
theorem lookupAssoc_cons {α : Type} (k0 : String) (v0 : α)
    (tl : List (String × α)) (k' : String) :
    lookupAssoc ((k0, v0) :: tl) k' =
      if k0 = k' then some v0 else lookupAssoc tl k' := by
  by_cases h : k0 = k'
  · have hb : (k0 == k') = true := by simp [h]
    simp [lookupAssoc, List.find?, hb, h]
  · have hb : (k0 == k') = false := by simp [h]
    simp [lookupAssoc, List.find?, hb, h]

/-- Lookup after insertion: the inserted key reads back the new value,
every other key is unaffected. -/
theorem lookupAssoc_insertAssoc {α : Type} (l : List (String × α))
    (k k' : String) (v : α) :
    lookupAssoc (insertAssoc l k v) k' =
      if k = k' then some v else lookupAssoc l k' := by
  induction l with
  | nil =>
      rw [show insertAssoc ([] : List (String × α)) k v = [(k, v)] from rfl,
        lookupAssoc_cons]
  | cons hd tl ih =>
      obtain ⟨k0, v0⟩ := hd
      by_cases h0 : k0 = k
      · subst h0
        rw [show insertAssoc ((k0, v0) :: tl) k0 v = (k0, v) :: tl from by
          simp [insertAssoc]]
        rw [lookupAssoc_cons, lookupAssoc_cons]
        by_cases h1 : k0 = k' <;> simp [h1]
      · have hb0 : (k0 == k) = false := by simp [h0]
        rw [show insertAssoc ((k0, v0) :: tl) k v =
          (k0, v0) :: insertAssoc tl k v from by simp [insertAssoc, hb0]]
        rw [lookupAssoc_cons, ih, lookupAssoc_cons]
        by_cases h1 : k0 = k'
        · subst h1
          have hkk : ¬(k = k0) := fun he => h0 he.symm
          simp [hkk]
        · simp [h1]

/-- The `AddVariable` with a non-blank name does not create a `_` entry. -/
theorem addVariable_keeps_blank_empty (s : GoFunctionScope)
    (b : GoVariableBinding) (hb : b.varName ≠ "_")
    (h : s.getAllBindings "_" = []) :
    (s.addVariable b).getAllBindings "_" = [] := by
  show (lookupAssoc (insertAssoc s.vars b.varName
      (((lookupAssoc s.vars b.varName).getD []) ++ [b])) "_").getD [] = []
  rw [lookupAssoc_insertAssoc, if_neg hb]
  exact h

/-- The `engineAddBinding` with a non-blank name preserves the invariant. -/
theorem engineAddBinding_noBlank (e : GoTypeInferenceEngine) (fqn : String)
    (b : GoVariableBinding) (hb : b.varName ≠ "_")
    (he : noBlankBindings e) : noBlankBindings (engineAddBinding e fqn b) := by
  intro fqn' scope' hs
  have hs2 : lookupAssoc (insertAssoc e.scopes
      (((e.getScope fqn).getD (NewGoFunctionScope fqn)).addVariable b).functionFQN
      (((e.getScope fqn).getD (NewGoFunctionScope fqn)).addVariable b)) fqn'
      = some scope' := hs
  rw [lookupAssoc_insertAssoc] at hs2
  by_cases hk :
      (((e.getScope fqn).getD (NewGoFunctionScope fqn)).addVariable
        b).functionFQN = fqn'
  · rw [if_pos hk] at hs2
    have hsc : scope' =
        ((e.getScope fqn).getD (NewGoFunctionScope fqn)).addVariable b := by
      injection hs2 with h2
      exact h2.symm
    rw [hsc]
    apply addVariable_keeps_blank_empty _ _ hb
    cases hg : e.getScope fqn with
    | some s0 => simpa [hg] using he fqn s0 hg
    | none =>
        simp [hg, NewGoFunctionScope, GoFunctionScope.getAllBindings,
          lookupAssoc]
  · rw [if_neg hk] at hs2
    exact he fqn' scope' hs2

/-- Fold preservation: a property preserved by every step of a fold holds
of the fold's result. -/
theorem foldl_preserves {β : Type} (P : GoTypeInferenceEngine → Prop)
    (f : GoTypeInferenceEngine → β → GoTypeInferenceEngine) :
    ∀ (l : List β), (∀ e x, x ∈ l → P e → P (f e x)) →
      ∀ e, P e → P (l.foldl f e)
  | [], _, _, he => he
  | x :: xs, hstep, e, he =>
      foldl_preserves P f xs
        (fun e' y hy => hstep e' y (List.mem_cons_of_mem x hy))
        (f e x) (hstep e x (List.mem_cons_self x xs) he)

/-- The `processShortVarDeclaration` preserves the invariant: the blank
identifier is skipped explicitly. -/
theorem processShortVarDeclaration_noBlank (lhs : List VarInfo)
    (rhs : Option GoRhs) (filePath functionFQN : String)
    (e : GoTypeInferenceEngine) (registry : GoModuleRegistry)
    (importMap : GoImportMap) (he : noBlankBindings e) :
    noBlankBindings (processShortVarDeclaration lhs rhs filePath functionFQN
      e registry importMap) := by
  unfold processShortVarDeclaration
  by_cases hemp : (ParseShortVarDeclaration lhs).isEmpty = true
  · rw [if_pos hemp]; exact he
  · rw [if_neg hemp]
    cases rhs with
    | none => exact he
    | some rhsNode =>
        apply foldl_preserves _ _ _ _ _ he
        intro e' v _ hP
        by_cases hn : (v.name == "_") = true
        · rw [if_pos hn]; exact hP
        · rw [if_neg hn]
          cases hinf : inferTypeFromRHS rhsNode filePath functionFQN e'
              registry importMap with
          | none => exact hP
          | some typeInfo =>
              exact engineAddBinding_noBlank e' functionFQN _
                (by simpa [beq_iff_eq] using hn) hP

/-- The `processAssignmentStatement` preserves the invariant: the helper drops
blank identifiers before the loop. -/
theorem processAssignmentStatement_noBlank (lhs : List VarInfo)
    (rhs : Option GoRhs) (filePath functionFQN : String)
    (e : GoTypeInferenceEngine) (registry : GoModuleRegistry)
    (importMap : GoImportMap) (he : noBlankBindings e) :
    noBlankBindings (processAssignmentStatement lhs rhs filePath functionFQN
      e registry importMap) := by
  unfold processAssignmentStatement
  by_cases hemp : (ParseAssignment lhs).isEmpty = true
  · rw [if_pos hemp]; exact he
  · rw [if_neg hemp]
    cases rhs with
    | none => exact he
    | some rhsNode =>
        apply foldl_preserves _ _ _ _ _ he
        intro e' v hv hP
        have hvne : v.name ≠ "_" := by
          have := (List.mem_filter.mp hv).2
          simpa [bne_iff_ne] using this
        cases hinf : inferTypeFromRHS rhsNode filePath functionFQN e'
            registry importMap with
        | none => exact hP
        | some typeInfo =>
            exact engineAddBinding_noBlank e' functionFQN _ hvne hP

mutual

/-- The traversal preserves the no-blank-binding invariant. -/
theorem traverse_noBlank (node : GoNode)
    (filePath packagePath currentFunctionFQN : String)
    (typeEngine : GoTypeInferenceEngine) (registry : GoModuleRegistry)
    (importMap : GoImportMap) (he : noBlankBindings typeEngine) :
    noBlankBindings (traverseForVariableAssignments node filePath packagePath
      currentFunctionFQN typeEngine registry importMap) := by
  cases node with
  | funcDecl name children =>
      exact traverseChildren_noBlank children _ _ _ _ _ _ he
  | methodDecl name receiverRaw children =>
      exact traverseChildren_noBlank children _ _ _ _ _ _ he
  | shortVarDecl lhs rhs children =>
      exact traverseChildren_noBlank children _ _ _ _ _ _ (by
        by_cases hfqn : (currentFunctionFQN != "") = true
        · rw [if_pos hfqn]
          exact processShortVarDeclaration_noBlank _ _ _ _ _ _ _ he
        · rw [if_neg hfqn]
          exact he)
  | assignStmt lhs rhs children =>
      exact traverseChildren_noBlank children _ _ _ _ _ _ (by
        by_cases hfqn : (currentFunctionFQN != "") = true
        · rw [if_pos hfqn]
          exact processAssignmentStatement_noBlank _ _ _ _ _ _ _ he
        · rw [if_neg hfqn]
          exact he)
  | otherNode children =>
      exact traverseChildren_noBlank children _ _ _ _ _ _ he

/-- The child loop preserves the no-blank-binding invariant. -/
theorem traverseChildren_noBlank (children : List GoNode)
    (filePath packagePath currentFunctionFQN : String)
    (typeEngine : GoTypeInferenceEngine) (registry : GoModuleRegistry)
    (importMap : GoImportMap) (he : noBlankBindings typeEngine) :
    noBlankBindings (traverseChildren children filePath packagePath
      currentFunctionFQN typeEngine registry importMap) := by
  cases children with
  | nil => exact he
  | cons child rest =>
      exact traverseChildren_noBlank rest _ _ _ _ _ _
        (traverse_noBlank child _ _ _ _ _ _ he)

end

/-- C4: in every engine produced by Pass 2b from an engine with no blank
bindings, a left-hand-side blank identifier `_` — in short variable
declarations and plain assignments alike — never produces a variable
binding in any function scope. -/
theorem blank_identifier_never_bound (filePath : String) (tree : GoNode)
    (typeEngine : GoTypeInferenceEngine) (registry : GoModuleRegistry)
    (importMap : GoImportMap) (he : noBlankBindings typeEngine)
    (fqn : String) (scope : GoFunctionScope)
    (hs : (ExtractGoVariableAssignments filePath tree typeEngine registry
      importMap).getScope fqn = some scope) :
    scope.getAllBindings "_" = [] := by
  revert hs
  have hdef : ExtractGoVariableAssignments filePath tree typeEngine registry
      importMap =
      (match lookupAssoc registry.dirToImport (goDirOf filePath) with
       | none => typeEngine
       | some packagePath =>
           traverseForVariableAssignments tree filePath packagePath ""
             typeEngine registry importMap) := rfl
  rw [hdef]
  cases lookupAssoc registry.dirToImport (goDirOf filePath) with
  | none => exact he fqn scope
  | some packagePath =>
      exact traverse_noBlank tree filePath packagePath "" typeEngine registry
        importMap he fqn scope

/-- C4 witness: the concrete run binds `x` but never `_`. -/
theorem blank_identifier_never_bound_witness :
    scopeC4.getAllBindings "_" = [] :=
  blank_identifier_never_bound "/app/main.go" treeC4 engineC4 regC4
    { packageName := "app", imports := [] }
    (fun fqn scope hsc => by
      simp [NewGoTypeInferenceEngine, GoTypeInferenceEngine.getScope,
        lookupAssoc, engineC4] at hsc)
    "app.F" scopeC4 (by decide)

/-! ## C3 — stdlib binding for resp (code vs test/spec) -/

/-- C3: on the claim's input the latest binding for `resp` has typeFQN
`net/http.Response` as claimed, but its source is "stdlib" and its
confidence 1.0 — not "stdlib_registry" / 0.9: `GetReturnType`'s own stdlib
fallback answers before `inferTypeFromStdlibFunction` is ever consulted,
contradicting the repo's test `TestExtractGoVariables_StdlibFunctionReturn`
and scenario S1 of the spec. -/
theorem respBinding_stdlib_source :
    scopeC3.getVariable "resp" = some bindingC3 ∧
    bindingC3.type_.typeFQN = "net/http.Response" ∧
    bindingC3.type_.source = "stdlib" ∧
    bindingC3.type_.confidence = 100 ∧
    (scopeC3.getVariable "resp").map (fun b => b.type_.source) ≠
      some "stdlib_registry" := by
  refine ⟨by decide, rfl, rfl, rfl, by decide⟩

/-! ## C5 — latest binding wins, bindings in source order -/

/-- C5: in a scope whose binding lists are in nondecreasing line order (as
Pass 2b produces, appending in source order), `GetVariable` returns the
last — maximum-line — binding and `GetAllBindings` returns the whole list
in that order; in the example run, `getVariable "u"` is the line-20
binding and `getAllBindings "u"` is `[line-10, line-20]`. -/
theorem getVariable_latest_binding (s : GoFunctionScope) (name : String)
    (hsorted : (s.getAllBindings name).Pairwise
      (fun a b => a.location.line ≤ b.location.line)) :
    (s.getVariable name = (s.getAllBindings name).getLast?) ∧
    (∀ b, s.getVariable name = some b →
      ∀ b' ∈ s.getAllBindings name,
        b'.location.line ≤ b.location.line) ∧
    scopeC5.getVariable "u" = some bindingC5b ∧
    scopeC5.getAllBindings "u" = [bindingC5a, bindingC5b] := by
  have hmatch : ∀ (L : List GoVariableBinding),
      (match L with
        | [] => (none : Option GoVariableBinding)
        | _ => L.getLast?) = L.getLast? := by
    intro L
    cases L <;> rfl
  have h1 : s.getVariable name = (s.getAllBindings name).getLast? :=
    hmatch ((lookupAssoc s.vars name).getD [])
  refine ⟨h1, ?_, by decide, by decide⟩
  intro b hb b' hb'
  rw [h1] at hb
  obtain ⟨ys, hys⟩ := List.getLast?_eq_some_iff.mp hb
  rw [hys] at hb' hsorted
  rcases List.mem_append.mp hb' with h | h
  · exact (List.pairwise_append.mp hsorted).2.2 b' h b
      (List.mem_singleton_self b)
  · have hbb : b' = b := by simpa using h
    rw [hbb]

/-- C5 witness: the concrete Pass 2b run, with the sortedness hypothesis
discharged by evaluation. -/
theorem getVariable_latest_binding_witness :
    scopeC5.getVariable "u" = some bindingC5b ∧
    scopeC5.getAllBindings "u" = [bindingC5a, bindingC5b] := by
  have h := getVariable_latest_binding scopeC5 "u" (by decide)
  exact ⟨h.2.2.1, h.2.2.2⟩

end CodePathfinder
